import Mathlib

/-!
Shallow embedding of the stock-research-tool pipeline
(src/stock_tool/config_manager.py, intrinsic_value_calculator.py,
stock_analyzer.py, data_fetcher.py).

Python floats are modelled by ℚ; the float value None is modelled by
Option ℚ (none = the Python value None).  Python code that can raise an
exception is modelled by Except String; the error string names the Python
exception (the exact Python message text is given in comments).
-/

namespace StockTool

/-! ## Configuration store (config_manager.py)

The config is a JSON object; the parts the pipeline reads are the
"sectors" mapping and the "random_seed" object.  File persistence
(save_config / load_config) and the "last_updated" timestamp are I/O and
are not modelled; set_sector_params and set_random_seed_mode mutate
self.config in place, so they are modelled as functions returning the
post-call store together with the raised error, if any (on a raise the
in-place mutations performed before the raise survive). -/

/-- One sector's entry in config["sectors"].  Each key may be absent
(set_sector_params can create partial entries), hence the Options.
The Python key "pe_ratio" is modelled by the field `pe`. -/
structure SectorParams where
  growth_rate : Option ℚ
  pe : Option ℚ
  discount_rate : Option ℚ
deriving DecidableEq

/-- config["random_seed"] -/
structure SeedConfig where
  mode : String
  value : Option ℤ
  last_used : Option ℤ
deriving DecidableEq

/-- The configuration store (the parts read by the pipeline). -/
structure Config where
  sectors : List (String × SectorParams)
  random_seed : SeedConfig
deriving DecidableEq

/-- Python dict lookup (insertion-ordered association list). -/
def alookup {α : Type} : List (String × α) → String → Option α
  | [], _ => none
  | (k, v) :: rest, s => if k = s then some v else alookup rest s

/-- Python dict assignment: update in place, or append a new key at the end. -/
def aset {α : Type} : List (String × α) → String → α → List (String × α)
  | [], k, v => [(k, v)]
  | (k0, v0) :: rest, k, v =>
    if k0 = k then (k, v) :: rest else (k0, v0) :: aset rest k v

/-- The empty dict assigned by set_sector_params to a brand-new sector. -/
def empty_params : SectorParams := ⟨none, none, none⟩

/-- ConfigManager.default_config["sectors"] and ["random_seed"]. -/
def default_config : Config :=
  { sectors :=
      [("Technology", ⟨some (8/100), some 25, some (10/100)⟩),
       ("Healthcare", ⟨some (6/100), some 20, some (9/100)⟩),
       ("Financials", ⟨some (4/100), some 15, some (8/100)⟩),
       ("Consumer Discretionary", ⟨some (5/100), some 18, some (9/100)⟩),
       ("Consumer Staples", ⟨some (3/100), some 16, some (7/100)⟩),
       ("Energy", ⟨some (4/100), some 12, some (10/100)⟩),
       ("Utilities", ⟨some (2/100), some 14, some (6/100)⟩),
       ("Industrials", ⟨some (4/100), some 17, some (8/100)⟩),
       ("Materials", ⟨some (4/100), some 15, some (9/100)⟩),
       ("Real Estate", ⟨some (3/100), some 16, some (7/100)⟩),
       ("Communication Services", ⟨some (6/100), some 20, some (9/100)⟩)],
    random_seed := { mode := "generate", value := none, last_used := none } }

/-- ConfigManager.get_sector_params: self.config["sectors"].get(sector, \x7b\x7d). -/
def get_sector_params (cfg : Config) (sector : String) : SectorParams :=
  (alookup cfg.sectors sector).getD empty_params

/-- Third step of ConfigManager.set_sector_params: the discount_rate field.
`s` is the current (possibly already mutated) sectors dict. -/
def set_sector_params_dr (cfg : Config) (sector : String)
    (s : List (String × SectorParams)) (discount_rate : Option ℚ) :
    Config × Option String :=
  let p := (alookup s sector).getD empty_params
  match discount_rate with
  | some d =>
    if 0 ≤ d ∧ d ≤ 1 then
      ({ cfg with sectors := aset s sector { p with discount_rate := some d } }, none)
    else
      ({ cfg with sectors := s }, some "ValueError: Discount rate must be between 0 and 1.")
  | none => ({ cfg with sectors := s }, none)

/-- Second step of ConfigManager.set_sector_params: the pe_ratio field. -/
def set_sector_params_pe (cfg : Config) (sector : String)
    (s : List (String × SectorParams)) (pe discount_rate : Option ℚ) :
    Config × Option String :=
  let p := (alookup s sector).getD empty_params
  match pe with
  | some v =>
    if v ≤ 0 then
      ({ cfg with sectors := s }, some "ValueError: P/E ratio must be positive.")
    else
      set_sector_params_dr cfg sector (aset s sector { p with pe := some v }) discount_rate
  | none => set_sector_params_dr cfg sector s discount_rate

/-- ConfigManager.set_sector_params.  Mirrors the statement order of the
source: a missing sector entry is inserted (as an empty dict) before any
validation runs, then the three fields are validated and written one at a
time, raising at the first invalid one.  Returns the post-call store and
the raised ValueError message, if any. -/
def set_sector_params (cfg : Config) (sector : String)
    (growth_rate pe discount_rate : Option ℚ) : Config × Option String :=
  let s0 := if (alookup cfg.sectors sector).isSome then cfg.sectors
            else cfg.sectors ++ [(sector, empty_params)]
  let p0 := (alookup s0 sector).getD empty_params
  match growth_rate with
  | some g =>
    if 0 ≤ g ∧ g ≤ 1 then
      set_sector_params_pe cfg sector (aset s0 sector { p0 with growth_rate := some g })
        pe discount_rate
    else
      ({ cfg with sectors := s0 }, some "ValueError: Growth rate must be between 0 and 1.")
  | none => set_sector_params_pe cfg sector s0 pe discount_rate

/-- ConfigManager.set_random_seed_mode.  Returns the post-call store and
the raised ValueError message, if any.  Note the mode field is written
before the missing-value check for mode "specify". -/
def set_random_seed_mode (cfg : Config) (mode : String) (value : Option ℤ) :
    Config × Option String :=
  if mode = "reuse" ∨ mode = "generate" ∨ mode = "specify" then
    let cfg1 : Config := { cfg with random_seed := { cfg.random_seed with mode := mode } }
    if mode = "specify" ∧ value = none then
      (cfg1, some "ValueError: Value must be provided when mode is specify.")
    else if mode = "specify" then
      ({ cfg1 with random_seed := { cfg1.random_seed with value := value } }, none)
    else (cfg1, none)
  else
    (cfg, some "ValueError: Invalid mode. Use reuse, generate, or specify.")

/-! ## Valuation engine (intrinsic_value_calculator.py) -/

/-- A stock_data record as seen by IntrinsicValueCalculator.get_intrinsic_value
and StockAnalyzer.  price and shares are accessed with [] (assumed present,
numeric); fcf / eps / growth_rate / fmp_dcf are read with .get, so an
Option models both an absent key and a stored None. -/
structure StockData where
  price : ℚ
  shares : ℚ
  fcf : Option ℚ
  sector : String
  eps : Option ℚ
  growth_rate : Option ℚ
  fmp_dcf : Option ℚ
deriving DecidableEq

/-- Python truthiness of a possibly-None float (None and 0.0 are falsy). -/
def py_truthy : Option ℚ → Bool
  | none => false
  | some q => decide (q ≠ 0)

/-- IntrinsicValueCalculator.calculate_dcf with its default arguments
years=10, terminal_growth=0.02 (every call site uses the defaults).
Python raises ZeroDivisionError when discount_rate - terminal_growth is
exactly 0 (the terminal-value capitalisation) and when 1 + discount_rate
is 0 (the per-year discounting). -/
def calculate_dcf (fcf growth_rate discount_rate : ℚ) : Except String ℚ :=
  let years : ℕ := 10
  let terminal_growth : ℚ := 2/100
  let future_cash_flows := (List.range years).map (fun t => fcf * (1 + growth_rate) ^ (t + 1))
  if discount_rate - terminal_growth = 0 ∨ 1 + discount_rate = 0 then
    Except.error "ZeroDivisionError"
  else
    let last := (future_cash_flows.getLast?).getD 0
    let terminal_value := last * (1 + terminal_growth) / (discount_rate - terminal_growth)
    let discounted_cf := future_cash_flows.enum.map (fun p => p.2 / (1 + discount_rate) ^ (p.1 + 1))
    Except.ok (discounted_cf.sum + terminal_value / (1 + discount_rate) ^ years)

/-- get_intrinsic_value: growth_rate = stock_data.get('growth_rate',
sector_defaults.get('growth_rate', 0.05)). -/
def resolved_growth_rate (cfg : Config) (sd : StockData) : ℚ :=
  sd.growth_rate.getD (((get_sector_params cfg sd.sector).growth_rate).getD (5/100))

/-- get_intrinsic_value: discount_rate = sector_defaults.get('discount_rate', 0.10). -/
def resolved_discount_rate (cfg : Config) (sd : StockData) : ℚ :=
  ((get_sector_params cfg sd.sector).discount_rate).getD (10/100)

/-- get_intrinsic_value: sector_pe = sector_defaults.get('pe_ratio', 15.0). -/
def resolved_sector_pe (cfg : Config) (sd : StockData) : ℚ :=
  ((get_sector_params cfg sd.sector).pe).getD 15

/-- The DCF sub-estimate of get_intrinsic_value: computed whenever fcf is
truthy and shares > 0 (there is no guard on the discount rate), otherwise
None.  Propagates the ZeroDivisionError of calculate_dcf. -/
def dcf_per_share (cfg : Config) (sd : StockData) : Except String (Option ℚ) :=
  if py_truthy sd.fcf && decide (0 < sd.shares) then
    match calculate_dcf (sd.fcf.getD 0) (resolved_growth_rate cfg sd)
        (resolved_discount_rate cfg sd) with
    | Except.error e => Except.error e
    | Except.ok dcf_total => Except.ok (some (dcf_total / sd.shares))
  else Except.ok none

/-- The PEG sub-estimate of get_intrinsic_value: computed when eps is
truthy, eps > 0 and the resolved growth rate > 0; fair P/E collapses to
sector P/E when the sector growth rate is not positive. -/
def peg_intrinsic (cfg : Config) (sd : StockData) : Option ℚ :=
  match sd.eps with
  | none => none
  | some e =>
    if 0 < e ∧ 0 < resolved_growth_rate cfg sd then
      let sector_growth :=
        ((get_sector_params cfg sd.sector).growth_rate).getD (resolved_growth_rate cfg sd)
      let fair_pe :=
        if 0 < sector_growth then
          resolved_sector_pe cfg sd * (resolved_growth_rate cfg sd / sector_growth)
        else resolved_sector_pe cfg sd
      some (fair_pe * e)
    else none

/-- IntrinsicValueCalculator.get_intrinsic_value: blend of the DCF, PEG
and externally supplied (fmp_dcf) sub-estimates — the mean of the
non-None ones, None if all are None. -/
def get_intrinsic_value (cfg : Config) (sd : StockData) : Except String (Option ℚ) :=
  match dcf_per_share cfg sd with
  | Except.error e => Except.error e
  | Except.ok d =>
    let values := [d, peg_intrinsic cfg sd, sd.fmp_dcf].filterMap id
    Except.ok (if values.isEmpty then none else some (values.sum / (values.length : ℚ)))

/-! ## Analyzer / ranker (stock_analyzer.py) -/

/-- The value of a derived pe_ratio field: price/eps (a finite float) or
the float('-inf') sentinel assigned when eps is not > 0. -/
inductive PyFloat where
  | neg_inf : PyFloat
  | fin : ℚ → PyFloat
deriving DecidableEq

/-- Python `x <= 0` on a derived pe_ratio value (float('-inf') <= 0 is True). -/
def PyFloat.le_zero : PyFloat → Bool
  | PyFloat.neg_inf => true
  | PyFloat.fin q => decide (q ≤ 0)

/-- Python `x > m` on a derived pe_ratio value (float('-inf') > m is False). -/
def PyFloat.gt : PyFloat → ℚ → Bool
  | PyFloat.neg_inf, _ => false
  | PyFloat.fin q, m => decide (m < q)

/-- StockAnalyzer.analyze_stocks, derived P/E step:
`data['pe_ratio'] = data['price'] / data['eps'] if data.get('eps', 0) > 0
else float('-inf')`.  The fetcher always stores the eps key in every
record it returns, so `data.get('eps', 0)` returns the stored value; when
that value is None the comparison `None > 0` raises TypeError. -/
def derive_pe (sd : StockData) : Except String PyFloat :=
  match sd.eps with
  | none => Except.error "TypeError"
  | some e => if 0 < e then Except.ok (PyFloat.fin (sd.price / e)) else Except.ok PyFloat.neg_inf

/-- A stock dict after analyze_stocks has attached 'ticker', 'pe_ratio'
(field `pe`) and 'intrinsic_value'. -/
structure AnalyzedStock where
  ticker : String
  data : StockData
  pe : PyFloat
  intrinsic_value : Option ℚ
deriving DecidableEq

/-- StockAnalyzer.AMEX_TICKERS. -/
def AMEX_TICKERS : List String := ["ZDGE", "SGE", "WTT", "LGL"]

/-- The recognized filter parameters.  exclude_negative_pe models
filter_params.get('exclude_negative_pe', False); max_pe is some m exactly
when the key 'max_pe' is present with value m. -/
structure FilterParams where
  exclude_negative_pe : Bool
  max_pe : Option ℚ
deriving DecidableEq

/-- StockAnalyzer.passes_filters. -/
def passes_filters (stock : AnalyzedStock) (fp : FilterParams) : Bool :=
  match stock.intrinsic_value with
  | none => false
  | some iv =>
    if iv ≤ 0 then false
    else if fp.exclude_negative_pe && decide (stock.ticker ∉ AMEX_TICKERS)
        && PyFloat.le_zero stock.pe then false
    else match fp.max_pe with
      | some m => if PyFloat.gt stock.pe m then false else true
      | none => true

/-- One row of the analyzer's output list. -/
structure OutputStock where
  ticker : String
  score : ℚ
  intrinsic_value : Option ℚ
  price : ℚ
  sector : String
deriving DecidableEq

/-- Score and output-projection step of analyze_stocks.  Every stock that
reaches this step has passed the filters, so its intrinsic_value is a
some; the getD 0 renders the Python division `intrinsic_value / price`
total. -/
def make_output (s : AnalyzedStock) : OutputStock :=
  { ticker := s.ticker
    score := if 0 < s.data.price then (s.intrinsic_value.getD 0) / s.data.price else 0
    intrinsic_value := s.intrinsic_value
    price := s.data.price
    sector := s.data.sector }

/-- Stable insertion for the descending sort: x is placed before the first
element whose score is ≤ x's, so equal scores keep their original order,
as Python's stable `sorted(key, reverse=True)` does. -/
def insert_by_score (x : OutputStock) : List OutputStock → List OutputStock
  | [] => [x]
  | y :: ys => if y.score ≤ x.score then x :: y :: ys else y :: insert_by_score x ys

/-- `sorted(stocks, key=lambda x: x['score'], reverse=True)`. -/
def sort_by_score_desc : List OutputStock → List OutputStock
  | [] => []
  | x :: xs => insert_by_score x (sort_by_score_desc xs)

/-- StockAnalyzer.analyze_stocks on an already-fetched batch (the
insertion-ordered dict returned by fetch_data), ungrouped branch
(sector_prefs is None).  The two preparation loops run in source order:
first every derived P/E, then every intrinsic value; a TypeError or
ZeroDivisionError raised inside either loop propagates out. -/
def analyze_stocks (cfg : Config) (stock_data : List (String × StockData))
    (fp : FilterParams) : Except String (List OutputStock) := do
  let stock_list ← stock_data.mapM (fun p => (derive_pe p.2).map (fun pe => (p.1, p.2, pe)))
  let with_iv ← stock_list.mapM (fun p =>
    (get_intrinsic_value cfg p.2.1).map
      (fun iv => ({ ticker := p.1, data := p.2.1, pe := p.2.2, intrinsic_value := iv } :
        AnalyzedStock)))
  let filtered := with_iv.filter (fun s => passes_filters s fp)
  let output := filtered.map make_output
  Except.ok (sort_by_score_desc output)

/-- StockAnalyzer.analyze_stocks, grouped branch: one ranked list per
requested sector, in sector_prefs order; stocks whose sector is not in
sector_prefs are dropped. -/
def analyze_stocks_grouped (cfg : Config) (stock_data : List (String × StockData))
    (fp : FilterParams) (sector_prefs : List String) :
    Except String (List (String × List OutputStock)) := do
  let stock_list ← stock_data.mapM (fun p => (derive_pe p.2).map (fun pe => (p.1, p.2, pe)))
  let with_iv ← stock_list.mapM (fun p =>
    (get_intrinsic_value cfg p.2.1).map
      (fun iv => ({ ticker := p.1, data := p.2.1, pe := p.2.2, intrinsic_value := iv } :
        AnalyzedStock)))
  let filtered := with_iv.filter (fun s => passes_filters s fp)
  let output := filtered.map make_output
  Except.ok (sector_prefs.map (fun sec =>
    (sec, sort_by_score_desc (output.filter (fun s => s.sector = sec)))))

/-! ## Cached fetcher (data_fetcher.py)

The DatabaseManager is modelled as a read oracle `db : String → Option
CachedRecord` (get_cached_data); the save_stock_data write and the log
emission are side effects not needed by the verified properties.  The
four per-symbol HTTP lookups plus JSON field extraction all run inside
one try-block per symbol; they are modelled as one oracle `api : String →
Except String StockFields`, where an error is any exception of the caught
kinds (requests exceptions, IndexError, KeyError) raised by any of the
four lookups, and a returned StockFields carries the extracted values
(None for an empty result list or a missing key that the inline guards
turn into None).  Timestamps are UTC instants modelled as integers
(e.g. seconds); cache_duration is the TTL in the same unit. -/

/-- A field name that can appear in required_fields. -/
inductive Field where
  | price | shares | fcf | sector | eps
deriving DecidableEq

/-- The five data fields of a fetched record (each may be None). -/
structure StockFields where
  price : Option ℚ
  shares : Option ℚ
  fcf : Option ℚ
  sector : Option String
  eps : Option ℚ
deriving DecidableEq

/-- Whether a field of a record is present with a non-None value. -/
def StockFields.has_field (d : StockFields) : Field → Bool
  | Field.price => d.price.isSome
  | Field.shares => d.shares.isSome
  | Field.fcf => d.fcf.isSome
  | Field.sector => d.sector.isSome
  | Field.eps => d.eps.isSome

/-- A row of the stocks table as returned by get_cached_data. -/
structure CachedRecord where
  fields : StockFields
  intrinsic_value : Option ℚ
  score : Option ℚ
  timestamp : ℤ
deriving DecidableEq

/-- DataFetcher.is_cache_valid: now - timestamp < cache_duration
(strict comparison; UTC). -/
def is_cache_valid (cache_duration now timestamp : ℤ) : Bool :=
  decide (now - timestamp < cache_duration)

/-- DataFetcher.validate_data: every required field present and not None. -/
def validate_data (d : StockFields) (required_fields : List Field) : Bool :=
  required_fields.all (StockFields.has_field d)

/-- The cached-path test of fetch_data for one ticker: a cached record
exists, has a non-None value for every required field, and is fresh.  On
a hit, the returned dict is built from exactly the five cached field
values. -/
def cache_hit (db : String → Option CachedRecord) (required_fields : List Field)
    (cache_duration now : ℤ) (ticker : String) : Option StockFields :=
  match db ticker with
  | none => none
  | some c =>
    if validate_data c.fields required_fields &&
        is_cache_valid cache_duration now c.timestamp
    then some c.fields else none

/-- The to_fetch list accumulated by fetch_data: with use_cache, the
requested tickers whose cached-path test fails; otherwise all of them. -/
def to_fetch_list (db : String → Option CachedRecord) (required_fields : List Field)
    (cache_duration now : ℤ) (use_cache : Bool) (tickers : List String) : List String :=
  if use_cache then
    tickers.filter (fun t => (cache_hit db required_fields cache_duration now t).isNone)
  else tickers

/-- DataFetcher.fetch_from_api: per-symbol lookups with per-symbol
exception suppression — a symbol whose lookup raises is skipped and
contributes nothing; the loop never re-raises. -/
def fetch_from_api (api : String → Except String StockFields) (tickers : List String) :
    List (String × StockFields) :=
  tickers.filterMap (fun t => ((api t).toOption).map (fun d => (t, d)))

/-- DataFetcher.fetch_data: cached results first (in request order), then
the validated remote results (in to_fetch order); remote results missing
a required field are logged and dropped. -/
def fetch_data (db : String → Option CachedRecord) (api : String → Except String StockFields)
    (cache_duration now : ℤ) (tickers : List String) (required_fields : List Field)
    (use_cache : Bool) : List (String × StockFields) :=
  let cached := if use_cache then
      tickers.filterMap (fun t =>
        (cache_hit db required_fields cache_duration now t).map (fun r => (t, r)))
    else []
  let api_results := fetch_from_api api
    (to_fetch_list db required_fields cache_duration now use_cache tickers)
  cached ++ api_results.filter (fun p => validate_data p.2 required_fields)

/-! ## Verified properties -/

/-- A configuration whose one sector has discount_rate = 0.02 (a value
set_sector_params accepts, since 0.02 lies in [0,1]). -/
def cfg_dr_eq_tg : Config :=
  { sectors := [("S", { growth_rate := some 0, pe := some 15, discount_rate := some (2/100) })],
    random_seed := { mode := "generate", value := none, last_used := none } }

/-- The same configuration with discount_rate = 0 (also accepted by
set_sector_params), strictly below the terminal growth rate 0.02. -/
def cfg_dr_lt_tg : Config :=
  { sectors := [("S", { growth_rate := some 0, pe := some 15, discount_rate := some 0 })],
    random_seed := { mode := "generate", value := none, last_used := none } }

/-- A record with truthy free cash flow and positive shares outstanding
(growth rate 0 keeps the cash-flow projections constant). -/
def sd_fcf_only : StockData :=
  { price := 100, shares := 1, fcf := some 1, sector := "S", eps := none,
    growth_rate := some 0, fmp_dcf := none }

/-- C1: the claim says the DCF sub-estimate is excluded from the blend
whenever discount_rate ≤ 0.02.  The code has no such guard: at
discount_rate = 0.02 the terminal-value capitalisation divides by zero
and get_intrinsic_value raises ZeroDivisionError instead of excluding the
estimate, and at discount_rate = 0 the (negative) DCF value is computed
and included in the blend (the result is some (-41), not none). -/
theorem dcf_no_discount_guard :
    get_intrinsic_value cfg_dr_eq_tg sd_fcf_only = Except.error "ZeroDivisionError" ∧
    get_intrinsic_value cfg_dr_lt_tg sd_fcf_only = Except.ok (some (-41)) := by
  constructor <;>
  · simp only [get_intrinsic_value, dcf_per_share, peg_intrinsic, calculate_dcf,
      resolved_growth_rate, resolved_discount_rate, resolved_sector_pe,
      get_sector_params, alookup, py_truthy, cfg_dr_eq_tg, cfg_dr_lt_tg, sd_fcf_only]
    norm_num [List.enum, List.enumFrom, List.replicate, List.getLast?,
      List.filterMap_cons, List.filterMap_nil, id_eq]

/-- C5: whenever get_intrinsic_value returns normally, the returned blend
is None exactly when all three sub-estimates (DCF per share, PEG,
fmp_dcf) are None, and otherwise it is the arithmetic mean of the
non-None sub-estimates. -/
theorem blend_is_mean_of_non_null (cfg : Config) (sd : StockData) (v : Option ℚ)
    (h : get_intrinsic_value cfg sd = Except.ok v) :
    ∃ d, dcf_per_share cfg sd = Except.ok d ∧
      ((v = none) ↔ (d = none ∧ peg_intrinsic cfg sd = none ∧ sd.fmp_dcf = none)) ∧
      (∀ m, v = some m →
        ([d, peg_intrinsic cfg sd, sd.fmp_dcf].filterMap id) ≠ [] ∧
        m = ([d, peg_intrinsic cfg sd, sd.fmp_dcf].filterMap id).sum /
            (([d, peg_intrinsic cfg sd, sd.fmp_dcf].filterMap id).length : ℚ)) := by
  unfold get_intrinsic_value at h
  cases hd : dcf_per_share cfg sd with
  | error e => rw [hd] at h; exact absurd h (by simp)
  | ok d =>
    rw [hd] at h
    simp only [Except.ok.injEq] at h
    subst h
    refine ⟨d, rfl, ?_, ?_⟩
    · cases d <;> cases hp : peg_intrinsic cfg sd <;> cases hf : sd.fmp_dcf <;>
        simp_all [List.filterMap_cons]
    · intro m hm
      cases d <;> cases hp : peg_intrinsic cfg sd <;> cases hf : sd.fmp_dcf <;>
        simp_all [List.filterMap_cons]

/-- A record no sub-estimate can value (shares = 0 and no fcf, eps, or
external estimate). -/
def sd_unvaluable : StockData :=
  { price := 100, shares := 0, fcf := none, sector := "Technology", eps := none,
    growth_rate := none, fmp_dcf := none }

/-- Witness for C5 at a concrete record: the blend is None and indeed
every sub-estimate is None. -/
theorem blend_is_mean_of_non_null_witness :
    ∃ d, dcf_per_share default_config sd_unvaluable = Except.ok d ∧
      ((none : Option ℚ) = none ↔ (d = none ∧ peg_intrinsic default_config sd_unvaluable = none ∧
        sd_unvaluable.fmp_dcf = none)) ∧
      (∀ m, (none : Option ℚ) = some m →
        ([d, peg_intrinsic default_config sd_unvaluable, sd_unvaluable.fmp_dcf].filterMap id) ≠ [] ∧
        m = ([d, peg_intrinsic default_config sd_unvaluable, sd_unvaluable.fmp_dcf].filterMap id).sum /
            (([d, peg_intrinsic default_config sd_unvaluable, sd_unvaluable.fmp_dcf].filterMap
              id).length : ℚ)) :=
  blend_is_mean_of_non_null default_config sd_unvaluable none (by
    simp [get_intrinsic_value, dcf_per_share, peg_intrinsic, py_truthy, sd_unvaluable])

/-- A configuration with no sector entries (every sector resolves to the
fixed fallbacks). -/
def cfg_empty : Config :=
  { sectors := [], random_seed := { mode := "generate", value := none, last_used := none } }

/-- A fetched record with negative EPS, valuable through its DCF estimate
(fcf = 1, shares = 1, growth rate 0, fallback discount rate 0.10). -/
def rec_neg_eps : StockData :=
  { price := 10, shares := 1, fcf := some 1, sector := "S2", eps := some (-1),
    growth_rate := some 0, fmp_dcf := none }

/-- C2 counterexample: "TSLA" (not in the AMEX exemption list) has
EPS = -1, so its derived P/E is the negative-infinity sentinel.  Contrary
to the claim, a max_pe = 30 upper-bound filter does NOT drop it (it
appears in the output), and the exclude_negative_pe logic does NOT exempt
it (it is dropped). -/
theorem pe_sentinel_claim_false :
    (analyze_stocks cfg_empty [("TSLA", rec_neg_eps)]
      { exclude_negative_pe := false, max_pe := some 30 }).map
        (List.map OutputStock.ticker) = Except.ok ["TSLA"] ∧
    (analyze_stocks cfg_empty [("TSLA", rec_neg_eps)]
      { exclude_negative_pe := true, max_pe := none }).map
        (List.map OutputStock.ticker) = Except.ok [] := by
  constructor <;>
  · simp only [analyze_stocks, List.mapM, List.mapM.loop, derive_pe, rec_neg_eps,
      get_intrinsic_value, dcf_per_share, peg_intrinsic, calculate_dcf,
      resolved_growth_rate, resolved_discount_rate, resolved_sector_pe,
      get_sector_params, alookup, py_truthy, cfg_empty, empty_params, Option.getD,
      Except.map, Except.bind, bind, pure, Except.pure]
    norm_num [List.enum, List.enumFrom, List.replicate, List.getLast?,
      List.filterMap_cons, List.filterMap_nil, id_eq, passes_filters, PyFloat.le_zero,
      PyFloat.gt, make_output, sort_by_score_desc, insert_by_score, AMEX_TICKERS,
      Except.map, Except.bind, bind, pure, Except.pure, List.mapM, List.mapM.loop,
      List.filter_cons, List.filter_nil, List.map_cons, List.map_nil]

/-- C2 amended: a ticker whose EPS is not > 0 gets the negative-infinity
sentinel as its derived P/E; for a stock carrying that sentinel,
passes_filters succeeds exactly when the intrinsic value is positive and,
if exclude_negative_pe is set, the ticker is in the AMEX exemption list —
in particular a max_pe upper-bound filter never drops the sentinel, and
exclude_negative_pe (rather than exempting it) is precisely the filter
that drops it for non-exempt tickers. -/
theorem pe_sentinel_semantics :
    (∀ sd e, sd.eps = some e → ¬ 0 < e → derive_pe sd = Except.ok PyFloat.neg_inf) ∧
    (∀ s fp, s.pe = PyFloat.neg_inf →
      (passes_filters s fp = true ↔
        ((∃ v, s.intrinsic_value = some v ∧ 0 < v) ∧
         (fp.exclude_negative_pe = true → s.ticker ∈ AMEX_TICKERS)))) := by
  constructor
  · intro sd e he h
    simp [derive_pe, he, h]
  · intro s fp hpe
    unfold passes_filters
    cases hiv : s.intrinsic_value with
    | none => simp
    | some iv =>
      rcases fp with ⟨ex, mp⟩
      cases ex <;> rcases mp with _ | m <;>
        by_cases hm : s.ticker ∈ AMEX_TICKERS <;>
          simp [hpe, PyFloat.le_zero, PyFloat.gt, hm, not_le]

/-- A stock row carrying the sentinel P/E and a positive intrinsic value. -/
def stock_sentinel : AnalyzedStock :=
  { ticker := "TSLA", data := rec_neg_eps, pe := PyFloat.neg_inf, intrinsic_value := some 5 }

/-- Witness for C2 amended at concrete inputs: the sentinel is assigned
for EPS = -1, and a sentinel stock with positive intrinsic value passes a
max_pe = 30 filter when exclude_negative_pe is off. -/
theorem pe_sentinel_semantics_witness :
    (rec_neg_eps.eps = some (-1) ∧ ¬ (0:ℚ) < -1 ∧
      derive_pe rec_neg_eps = Except.ok PyFloat.neg_inf) ∧
    (stock_sentinel.pe = PyFloat.neg_inf ∧
      (passes_filters stock_sentinel { exclude_negative_pe := false, max_pe := some 30 } = true ↔
        ((∃ v, stock_sentinel.intrinsic_value = some v ∧ 0 < v) ∧
         ((false : Bool) = true → stock_sentinel.ticker ∈ AMEX_TICKERS)))) :=
  ⟨⟨rfl, by norm_num, pe_sentinel_semantics.1 rec_neg_eps (-1) rfl (by norm_num)⟩,
   ⟨rfl, pe_sentinel_semantics.2 stock_sentinel
      { exclude_negative_pe := false, max_pe := some 30 } rfl⟩⟩

/-- C3 counterexample: updating the (previously absent) sector "Quantum"
with the invalid growth rate 2 raises the descriptive ValueError, but the
store is NOT left unchanged: an empty entry for "Quantum" has been
inserted before validation ran. -/
theorem sector_update_mutates_on_error :
    (set_sector_params cfg_empty "Quantum" (some 2) none none).2 =
      some "ValueError: Growth rate must be between 0 and 1." ∧
    alookup (set_sector_params cfg_empty "Quantum" (some 2) none none).1.sectors "Quantum" =
      some empty_params ∧
    alookup cfg_empty.sectors "Quantum" = none ∧
    (set_sector_params cfg_empty "Quantum" (some 2) none none).1 ≠ cfg_empty := by
  have herr : (set_sector_params cfg_empty "Quantum" (some 2) none none).2 =
      some "ValueError: Growth rate must be between 0 and 1." := by
    simp only [set_sector_params, cfg_empty, alookup]
    norm_num
  have hadd : alookup (set_sector_params cfg_empty "Quantum" (some 2) none none).1.sectors
      "Quantum" = some empty_params := by
    simp only [set_sector_params, cfg_empty, alookup]
    norm_num [alookup]
  refine ⟨herr, hadd, rfl, fun hEq => ?_⟩
  rw [hEq] at hadd
  simp [cfg_empty, alookup] at hadd

/-- The discount_rate step raises on an out-of-range value. -/
lemma set_sector_params_dr_invalid (cfg : Config) (sector : String)
    (s : List (String × SectorParams)) (v : ℚ) (h : ¬ (0 ≤ v ∧ v ≤ 1)) :
    ((set_sector_params_dr cfg sector s (some v)).2).isSome = true := by
  simp [set_sector_params_dr, h]

/-- The pe_ratio / discount_rate steps raise whenever one of their
supplied values is invalid. -/
lemma set_sector_params_pe_invalid (cfg : Config) (sector : String)
    (s : List (String × SectorParams)) (pe discount_rate : Option ℚ)
    (h : (∃ v, pe = some v ∧ v ≤ 0) ∨
         (∃ v, discount_rate = some v ∧ ¬ (0 ≤ v ∧ v ≤ 1))) :
    ((set_sector_params_pe cfg sector s pe discount_rate).2).isSome = true := by
  rcases h with ⟨v, hv, hval⟩ | ⟨v, hv, hval⟩
  · subst hv
    simp [set_sector_params_pe, hval]
  · subst hv
    cases pe with
    | none =>
      simpa [set_sector_params_pe] using
        set_sector_params_dr_invalid cfg sector s v hval
    | some w =>
      by_cases hw : w ≤ 0
      · simp [set_sector_params_pe, hw]
      · simpa [set_sector_params_pe, hw] using
          set_sector_params_dr_invalid cfg sector
            (aset s sector { (alookup s sector).getD empty_params with pe := some w }) v hval

/-- C3 amended: every sector-parameter update carrying an invalid value
(growth rate or discount rate outside [0,1], non-positive P/E) raises a
descriptive error, and a seed-mode update with an unknown mode raises and
leaves the store completely unchanged; however a failing sector update
may leave the store modified (a previously absent sector is inserted as
an empty entry before validation, and valid fields earlier in the
(growth_rate, pe_ratio, discount_rate) order are already applied). -/
theorem invalid_config_value_raises :
    (∀ cfg sector g p d,
      ((∃ v, g = some v ∧ ¬ (0 ≤ v ∧ v ≤ 1)) ∨ (∃ v, p = some v ∧ v ≤ 0) ∨
       (∃ v, d = some v ∧ ¬ (0 ≤ v ∧ v ≤ 1))) →
      ((set_sector_params cfg sector g p d).2).isSome = true) ∧
    (∀ cfg mode value, ¬ (mode = "reuse" ∨ mode = "generate" ∨ mode = "specify") →
      set_random_seed_mode cfg mode value =
        (cfg, some "ValueError: Invalid mode. Use reuse, generate, or specify.")) := by
  constructor
  · intro cfg sector g p d h
    rcases h with ⟨v, hv, hval⟩ | h2
    · subst hv
      simp [set_sector_params, hval]
    · cases g with
      | none =>
        simpa [set_sector_params] using
          set_sector_params_pe_invalid cfg sector _ p d h2
      | some w =>
        by_cases hw : 0 ≤ w ∧ w ≤ 1
        · simpa [set_sector_params, hw] using
            set_sector_params_pe_invalid cfg sector _ p d h2
        · simp [set_sector_params, hw]
  · intro cfg mode value h
    simp [set_random_seed_mode, h]

/-- Witness for C3 amended at concrete inputs: growth rate 2 on sector
"Quantum" raises, and the unknown seed mode "invalid" raises leaving the
store unchanged. -/
theorem invalid_config_value_raises_witness :
    ((∃ v, (some (2:ℚ)) = some v ∧ ¬ (0 ≤ v ∧ v ≤ 1)) ∨
      (∃ v, (none : Option ℚ) = some v ∧ v ≤ 0) ∨
      (∃ v, (none : Option ℚ) = some v ∧ ¬ (0 ≤ v ∧ v ≤ 1))) ∧
    ((set_sector_params cfg_empty "Quantum" (some 2) none none).2).isSome = true ∧
    ¬ ("invalid" = "reuse" ∨ "invalid" = "generate" ∨ "invalid" = "specify") ∧
    set_random_seed_mode cfg_empty "invalid" none =
      (cfg_empty, some "ValueError: Invalid mode. Use reuse, generate, or specify.") :=
  ⟨Or.inl ⟨2, rfl, by norm_num⟩,
   invalid_config_value_raises.1 cfg_empty "Quantum" (some 2) none none
     (Or.inl ⟨2, rfl, by norm_num⟩),
   by decide,
   invalid_config_value_raises.2 cfg_empty "invalid" none (by decide)⟩

/-- A fetched record whose eps field holds the value None (the fetcher
stores the eps key in every record, with None when the income-statement
lookup produced nothing; eps is not in the default required_fields, so
such a record passes validation). -/
def rec_null_eps : StockData :=
  { price := 10, shares := 5, fcf := some 3, sector := "Technology", eps := none,
    growth_rate := none, fmp_dcf := none }

/-- C4: the claim says the derived-P/E computation is total on records
with absent (null) EPS.  It is not: `data.get('eps', 0)` returns the
stored None (the key is present), and `None > 0` raises TypeError, which
aborts the whole analysis run for the batch containing that ticker. -/
theorem derived_pe_raises_on_null_eps :
    derive_pe rec_null_eps = Except.error "TypeError" ∧
    analyze_stocks default_config [("AAPL", rec_null_eps)]
      { exclude_negative_pe := false, max_pe := none } = Except.error "TypeError" := by
  constructor
  · simp [derive_pe, rec_null_eps]
  · simp [analyze_stocks, derive_pe, rec_null_eps, List.mapM, List.mapM.loop,
      Except.map, Except.bind, bind, pure, Except.pure]

/-- Insertion into the ranked list preserves membership. -/
lemma mem_insert_by_score {x y : OutputStock} {l : List OutputStock} :
    x ∈ insert_by_score y l ↔ x = y ∨ x ∈ l := by
  induction l with
  | nil => simp [insert_by_score]
  | cons z zs ih =>
    by_cases h : z.score ≤ y.score
    · simp [insert_by_score, h]
    · simp [insert_by_score, h, ih]
      tauto

/-- The ranking sort preserves membership. -/
lemma mem_sort_by_score_desc {x : OutputStock} {l : List OutputStock} :
    x ∈ sort_by_score_desc l ↔ x ∈ l := by
  induction l with
  | nil => simp [sort_by_score_desc]
  | cons y ys ih => simp [sort_by_score_desc, mem_insert_by_score, ih]

/-- Destructor for a successful Except bind. -/
lemma except_bind_ok {ε α β : Type} {x : Except ε α} {f : α → Except ε β} {b : β}
    (h : x >>= f = Except.ok b) : ∃ a, x = Except.ok a ∧ f a = Except.ok b := by
  cases x with
  | error e => simp [bind, Except.bind] at h
  | ok a => exact ⟨a, rfl, by simpa [bind, Except.bind] using h⟩

/-- A stock passing the filters has a positive (hence non-null) intrinsic
value. -/
lemma passes_filters_iv_pos {s : AnalyzedStock} {fp : FilterParams}
    (h : passes_filters s fp = true) :
    ∃ v, s.intrinsic_value = some v ∧ 0 < v := by
  unfold passes_filters at h
  cases hiv : s.intrinsic_value with
  | none => rw [hiv] at h; simp at h
  | some v =>
    rw [hiv] at h
    refine ⟨v, rfl, ?_⟩
    by_cases hv : v ≤ 0
    · simp [hv] at h
    · exact not_le.mp hv

/-- C6: a stock with a null or non-positive intrinsic value fails
passes_filters under every filter setting, and every row of a successful
analysis output carries a positive intrinsic value v with score = v/price
when price > 0 and score = 0 otherwise. -/
theorem score_rule_and_unvaluable_dropped :
    (∀ s fp, (s.intrinsic_value = none ∨ ∃ v, s.intrinsic_value = some v ∧ v ≤ 0) →
      passes_filters s fp = false) ∧
    (∀ cfg input fp out, analyze_stocks cfg input fp = Except.ok out →
      ∀ o, o ∈ out → ∃ v, o.intrinsic_value = some v ∧ 0 < v ∧
        o.score = if 0 < o.price then v / o.price else 0) := by
  constructor
  · intro s fp h
    rcases h with h | ⟨v, hv, hval⟩
    · simp [passes_filters, h]
    · simp [passes_filters, hv, hval]
  · intro cfg input fp out h o ho
    unfold analyze_stocks at h
    obtain ⟨l1, h1, h⟩ := except_bind_ok h
    obtain ⟨l2, h2, h⟩ := except_bind_ok h
    simp only [Except.ok.injEq] at h
    subst h
    rw [mem_sort_by_score_desc] at ho
    obtain ⟨s, hs, rfl⟩ := List.mem_map.mp ho
    have hpass := (List.mem_filter.mp hs).2
    obtain ⟨v, hv, hvpos⟩ := passes_filters_iv_pos (by simpa using hpass)
    exact ⟨v, by simp [make_output, hv], hvpos, by simp [make_output, hv]⟩

/-- A record valued through the PEG estimate only (unknown sector, EPS 2,
growth rate 0.10 → fair P/E 15, PEG estimate 30). -/
def rec_peg_only : StockData :=
  { price := 10, shares := 1, fcf := none, sector := "G", eps := some 2,
    growth_rate := some (1/10), fmp_dcf := none }

/-- The analysis row produced for rec_peg_only: intrinsic value 30,
score 30/10 = 3. -/
def out_peg_only : OutputStock :=
  { ticker := "T", score := 3, intrinsic_value := some 30, price := 10, sector := "G" }

/-- A stock row with a null intrinsic value. -/
def stock_null_iv : AnalyzedStock :=
  { ticker := "T", data := rec_peg_only, pe := PyFloat.fin 5, intrinsic_value := none }

/-- Witness for C6 at concrete inputs: a null intrinsic value fails the
filters, and the concrete analysis row has score = 30/10. -/
theorem score_rule_and_unvaluable_dropped_witness :
    passes_filters stock_null_iv { exclude_negative_pe := false, max_pe := none } = false ∧
    analyze_stocks cfg_empty [("T", rec_peg_only)]
      { exclude_negative_pe := false, max_pe := none } = Except.ok [out_peg_only] ∧
    ∃ v, out_peg_only.intrinsic_value = some v ∧ 0 < v ∧
      out_peg_only.score = if 0 < out_peg_only.price then v / out_peg_only.price else 0 := by
  have hEval : analyze_stocks cfg_empty [("T", rec_peg_only)]
      { exclude_negative_pe := false, max_pe := none } = Except.ok [out_peg_only] := by
    simp only [analyze_stocks, List.mapM, List.mapM.loop, derive_pe, rec_peg_only,
      get_intrinsic_value, dcf_per_share, peg_intrinsic, calculate_dcf,
      resolved_growth_rate, resolved_discount_rate, resolved_sector_pe,
      get_sector_params, alookup, py_truthy, cfg_empty, empty_params, Option.getD,
      Except.map, Except.bind, bind, pure, Except.pure]
    norm_num [List.enum, List.enumFrom, List.replicate, List.getLast?,
      List.filterMap_cons, List.filterMap_nil, id_eq, passes_filters, PyFloat.le_zero,
      PyFloat.gt, make_output, sort_by_score_desc, insert_by_score, AMEX_TICKERS,
      Except.map, Except.bind, bind, pure, Except.pure, List.mapM, List.mapM.loop,
      List.filter_cons, List.filter_nil, List.map_cons, List.map_nil, out_peg_only]
  exact ⟨score_rule_and_unvaluable_dropped.1 _ _ (Or.inl rfl), hEval,
    score_rule_and_unvaluable_dropped.2 cfg_empty [("T", rec_peg_only)]
      { exclude_negative_pe := false, max_pe := none } [out_peg_only] hEval
      out_peg_only (by simp)⟩

/-! Association-list lemmas for the fetcher results. -/

/-- A key found in the left part of an appended association list. -/
lemma alookup_append_left {α : Type} {l1 l2 : List (String × α)} {t : String} {x : α}
    (h : alookup l1 t = some x) : alookup (l1 ++ l2) t = some x := by
  induction l1 with
  | nil => simp [alookup] at h
  | cons p rest ih =>
    obtain ⟨k, v⟩ := p
    by_cases hk : k = t
    · simp [alookup, hk] at h ⊢
      exact h
    · simp [alookup, hk] at h ⊢
      exact ih h

/-- A key absent from both parts is absent from the appended list. -/
lemma alookup_append_none {α : Type} {l1 l2 : List (String × α)} {t : String}
    (h1 : alookup l1 t = none) (h2 : alookup l2 t = none) :
    alookup (l1 ++ l2) t = none := by
  induction l1 with
  | nil => simpa using h2
  | cons p rest ih =>
    obtain ⟨k, v⟩ := p
    by_cases hk : k = t
    · simp [alookup, hk] at h1
    · simp [alookup, hk] at h1 ⊢
      exact ih h1

/-- Looking up t in a per-ticker filterMap result finds f t, when t was
requested. -/
lemma alookup_filterMap_some {α : Type} (f : String → Option α) {tickers : List String}
    {t : String} {r : α} (ht : t ∈ tickers) (h : f t = some r) :
    alookup (tickers.filterMap (fun s => (f s).map (fun v => (s, v)))) t = some r := by
  induction tickers with
  | nil => cases ht
  | cons s rest ih =>
    by_cases hs : s = t
    · subst hs
      simp [List.filterMap_cons, h, alookup]
    · rcases List.mem_cons.mp ht with h1 | h1
      · exact absurd h1.symm hs
      · cases hf : f s with
        | none => simpa [List.filterMap_cons, hf] using ih h1
        | some v =>
          simp [List.filterMap_cons, hf, alookup, hs]
          exact ih h1

/-- A ticker whose per-ticker computation yields nothing never appears in
the filterMap result. -/
lemma alookup_filterMap_none {α : Type} (f : String → Option α) {t : String}
    (h : f t = none) (tickers : List String) :
    alookup (tickers.filterMap (fun s => (f s).map (fun v => (s, v)))) t = none := by
  induction tickers with
  | nil => rfl
  | cons s rest ih =>
    by_cases hs : s = t
    · subst hs
      simpa [List.filterMap_cons, h] using ih
    · cases hf : f s with
      | none => simpa [List.filterMap_cons, hf] using ih
      | some v => simpa [List.filterMap_cons, hf, alookup, hs] using ih

/-- Dropping a ticker whose per-ticker computation yields nothing does not
change the filterMap result. -/
lemma filterMap_skip_none {α : Type} (f : String → Option α) {t : String}
    (h : f t = none) (l : List String) :
    l.filterMap (fun s => (f s).map (fun v => (s, v))) =
      (l.filter (fun s => decide (s ≠ t))).filterMap (fun s => (f s).map (fun v => (s, v))) := by
  induction l with
  | nil => rfl
  | cons s rest ih =>
    by_cases hs : s = t
    · subst hs
      simp [List.filterMap_cons, List.filter_cons, h, ih]
    · simp [List.filterMap_cons, List.filter_cons, hs, ih]

/-- Key absence survives filtering. -/
lemma alookup_filter_none {α : Type} {l : List (String × α)} {t : String}
    {q : String × α → Bool} (h : alookup l t = none) :
    alookup (l.filter q) t = none := by
  induction l with
  | nil => rfl
  | cons p rest ih =>
    obtain ⟨k, v⟩ := p
    by_cases hk : k = t
    · simp [alookup, hk] at h
    · simp [alookup, hk] at h
      cases hq : q (k, v) with
      | false => simpa [List.filter_cons, hq] using ih h
      | true => simpa [List.filter_cons, hq, alookup, hk] using ih h

/-- Two filters on a list commute. -/
lemma filter_swap {p q : String → Bool} (l : List String) :
    (l.filter p).filter q = (l.filter q).filter p := by
  induction l with
  | nil => rfl
  | cons s rest ih =>
    cases hp : p s <;> cases hq : q s <;>
      simp [List.filter_cons, hp, hq, ih]

/-- to_fetch_list commutes with restricting the requested tickers. -/
lemma to_fetch_list_filter_comm (db : String → Option CachedRecord)
    (required : List Field) (dur now : ℤ) (use_cache : Bool)
    (tickers : List String) (p : String → Bool) :
    to_fetch_list db required dur now use_cache (tickers.filter p) =
      (to_fetch_list db required dur now use_cache tickers).filter p := by
  unfold to_fetch_list
  cases use_cache with
  | false => simp
  | true => simpa using filter_swap tickers

/-- C7: a requested ticker with a cached record that is complete (every
required field non-null) and fresh (age strictly below the TTL) is never
queued for a remote fetch, and the batch result maps it to exactly the
five cached field values. -/
theorem fresh_cache_no_remote_call :
    ∀ (db : String → Option CachedRecord) (api : String → Except String StockFields)
      (dur now : ℤ) (tickers : List String) (required : List Field) (t : String)
      (c : CachedRecord),
      db t = some c → validate_data c.fields required = true →
      now - c.timestamp < dur → t ∈ tickers →
      t ∉ to_fetch_list db required dur now true tickers ∧
      alookup (fetch_data db api dur now tickers required true) t = some c.fields := by
  intro db api dur now tickers required t c hdb hval hfresh ht
  have hhit : cache_hit db required dur now t = some c.fields := by
    simp [cache_hit, hdb, hval, is_cache_valid, hfresh]
  constructor
  · simp [to_fetch_list, List.mem_filter, hhit]
  · unfold fetch_data
    simp only [if_true]
    exact alookup_append_left
      (alookup_filterMap_some (fun s => cache_hit db required dur now s) ht hhit)

/-- The cached record used by the C7 and C8 witnesses. -/
def cached_aapl : CachedRecord :=
  { fields := { price := some 150, shares := some 10, fcf := some 5,
                sector := some "Technology", eps := some 3 },
    intrinsic_value := none, score := none, timestamp := 1000 }

/-- Witness for C7 at concrete inputs: with TTL 86400 and now = 2000
(age 1000), the cached "AAPL" record is served without a remote call. -/
theorem fresh_cache_no_remote_call_witness :
    (2000 - cached_aapl.timestamp < (86400 : ℤ)) ∧
    ("AAPL" ∉ to_fetch_list (fun s => if s = "AAPL" then some cached_aapl else none)
      [Field.price, Field.shares, Field.fcf] 86400 2000 true ["AAPL"]) ∧
    alookup (fetch_data (fun s => if s = "AAPL" then some cached_aapl else none)
      (fun _ => Except.error "network") 86400 2000 ["AAPL"]
      [Field.price, Field.shares, Field.fcf] true) "AAPL" = some cached_aapl.fields := by
  have h := fresh_cache_no_remote_call
    (fun s => if s = "AAPL" then some cached_aapl else none)
    (fun _ => Except.error "network") 86400 2000 ["AAPL"]
    [Field.price, Field.shares, Field.fcf] "AAPL" cached_aapl
    (by simp) (by rfl) (by norm_num [cached_aapl]) (by simp)
  exact ⟨by norm_num [cached_aapl], h.1, h.2⟩

/-- C8: freshness is a strict comparison, so a record whose age equals
the TTL exactly is expired — is_cache_valid is false and the ticker is
queued for a remote fetch. -/
theorem ttl_boundary_expired :
    ∀ (dur now ts : ℤ), now - ts = dur →
      is_cache_valid dur now ts = false ∧
      ∀ (db : String → Option CachedRecord) (required : List Field)
        (tickers : List String) (t : String) (c : CachedRecord),
        db t = some c → c.timestamp = ts → t ∈ tickers →
        t ∈ to_fetch_list db required dur now true tickers := by
  intro dur now ts h
  have hinv : is_cache_valid dur now ts = false := by
    simp [is_cache_valid, h]
  refine ⟨hinv, ?_⟩
  intro db required tickers t c hdb hts ht
  have hhit : cache_hit db required dur now t = none := by
    simp [cache_hit, hdb, hts, hinv]
  simp [to_fetch_list, List.mem_filter, ht, hhit]

/-- Witness for C8 at concrete inputs: now = 87400, timestamp = 1000,
TTL = 86400 — the age equals the TTL, the record counts as expired, and
"AAPL" is queued for remote fetch. -/
theorem ttl_boundary_expired_witness :
    ((87400 : ℤ) - 1000 = 86400) ∧
    is_cache_valid 86400 87400 1000 = false ∧
    "AAPL" ∈ to_fetch_list (fun s => if s = "AAPL" then some cached_aapl else none)
      [Field.price, Field.shares, Field.fcf] 86400 87400 true ["AAPL"] := by
  have h := ttl_boundary_expired 86400 87400 1000 (by norm_num)
  exact ⟨by norm_num, h.1,
    h.2 (fun s => if s = "AAPL" then some cached_aapl else none)
      [Field.price, Field.shares, Field.fcf] ["AAPL"] "AAPL" cached_aapl
      (by simp) (by rfl) (by simp)⟩

/-- C9: a symbol whose remote lookup raises one of the caught exception
kinds is simply absent from the batch result; the results for all other
symbols are exactly what they would have been had the failing symbol not
been requested, and no exception escapes (fetch_from_api and fetch_data
are total functions into result lists). -/
theorem failed_symbol_isolated :
    ∀ (db : String → Option CachedRecord) (api : String → Except String StockFields)
      (dur now : ℤ) (tickers : List String) (required : List Field) (use_cache : Bool)
      (t : String) (e : String),
      api t = Except.error e →
      cache_hit db required dur now t = none →
      fetch_from_api api tickers =
        fetch_from_api api (tickers.filter (fun s => decide (s ≠ t))) ∧
      fetch_data db api dur now tickers required use_cache =
        fetch_data db api dur now (tickers.filter (fun s => decide (s ≠ t)))
          required use_cache ∧
      alookup (fetch_data db api dur now tickers required use_cache) t = none := by
  intro db api dur now tickers required use_cache t e hapi hmiss
  have htop : (api t).toOption = none := by
    simp [hapi, Except.toOption]
  have hskip := filterMap_skip_none (fun s => (api s).toOption) htop
  refine ⟨hskip tickers, ?_, ?_⟩
  · unfold fetch_data fetch_from_api
    have hc : (if use_cache then
        tickers.filterMap (fun s =>
          (cache_hit db required dur now s).map (fun r => (s, r))) else []) =
        (if use_cache then
          (tickers.filter (fun s => decide (s ≠ t))).filterMap (fun s =>
            (cache_hit db required dur now s).map (fun r => (s, r))) else []) := by
      cases use_cache with
      | false => rfl
      | true => simpa using filterMap_skip_none (cache_hit db required dur now) hmiss tickers
    rw [hc, to_fetch_list_filter_comm, ← hskip (to_fetch_list db required dur now use_cache tickers)]
  · unfold fetch_data fetch_from_api
    refine alookup_append_none ?_ (alookup_filter_none ?_)
    · cases use_cache with
      | false => rfl
      | true => simpa using alookup_filterMap_none (cache_hit db required dur now) hmiss tickers
    · exact alookup_filterMap_none (fun s => (api s).toOption) htop _

/-- Witness for C9 at concrete inputs: "BAD" fails remotely and has no
cache entry, so fetching ["GOOD", "BAD"] equals fetching ["GOOD"] and
"BAD" is absent from the result. -/
theorem failed_symbol_isolated_witness :
    ((fun s => if s = "BAD" then Except.error "HTTPError"
        else Except.ok cached_aapl.fields) "BAD" :
      Except String StockFields) = Except.error "HTTPError" ∧
    cache_hit (fun _ => none) [Field.price] 86400 2000 "BAD" = none ∧
    fetch_from_api (fun s => if s = "BAD" then Except.error "HTTPError"
        else Except.ok cached_aapl.fields) ["GOOD", "BAD"] =
      fetch_from_api (fun s => if s = "BAD" then Except.error "HTTPError"
        else Except.ok cached_aapl.fields)
        (["GOOD", "BAD"].filter (fun s => decide (s ≠ "BAD"))) ∧
    alookup (fetch_data (fun _ => none)
      (fun s => if s = "BAD" then Except.error "HTTPError"
        else Except.ok cached_aapl.fields) 86400 2000 ["GOOD", "BAD"]
      [Field.price] true) "BAD" = none := by
  have h := failed_symbol_isolated (fun _ => none)
    (fun s => if s = "BAD" then Except.error "HTTPError" else Except.ok cached_aapl.fields)
    86400 2000 ["GOOD", "BAD"] [Field.price] true "BAD" "HTTPError"
    (by simp) (by rfl)
  exact ⟨by simp, by rfl, h.1, h.2.2⟩

/-- C10: for a record with positive EPS whose sector has no entry in the
configuration, the PEG sub-estimate collapses to the fixed fallback P/E
15 times EPS, whatever the (positive) resolved growth rate is: the sector
growth rate falls back to the resolved growth rate itself, so the ratio
growth/sector_growth cancels to 1. -/
theorem unknown_sector_peg_constant :
    ∀ (cfg : Config) (sd : StockData) (e : ℚ),
      alookup cfg.sectors sd.sector = none → sd.eps = some e → 0 < e →
      0 < resolved_growth_rate cfg sd →
      peg_intrinsic cfg sd = some (15 * e) := by
  intro cfg sd e hlook heps he hg
  have hsp : get_sector_params cfg sd.sector = empty_params := by
    simp [get_sector_params, hlook]
  unfold peg_intrinsic
  rw [heps]
  simp only [if_pos (And.intro he hg), hsp, empty_params, Option.getD,
    resolved_sector_pe, hsp]
  rw [if_pos hg, div_self (ne_of_gt hg)]
  ring_nf

/-- A record with positive EPS, an unconfigured sector, and its own
growth rate 3. -/
def rec_unknown_sector : StockData :=
  { price := 1, shares := 1, fcf := none, sector := "Frontier", eps := some 2,
    growth_rate := some 3, fmp_dcf := none }

/-- Witness for C10 at a concrete record: sector "Frontier" is not
configured, EPS = 2, growth rate 3 > 0, and the PEG estimate is
15 × 2. -/
theorem unknown_sector_peg_constant_witness :
    alookup cfg_empty.sectors rec_unknown_sector.sector = none ∧
    rec_unknown_sector.eps = some 2 ∧ (0:ℚ) < 2 ∧
    0 < resolved_growth_rate cfg_empty rec_unknown_sector ∧
    peg_intrinsic cfg_empty rec_unknown_sector = some (15 * 2) := by
  have hg : 0 < resolved_growth_rate cfg_empty rec_unknown_sector := by
    norm_num [resolved_growth_rate, rec_unknown_sector, cfg_empty,
      get_sector_params, alookup, empty_params]
  exact ⟨rfl, rfl, by norm_num, hg,
    unknown_sector_peg_constant cfg_empty rec_unknown_sector 2 rfl rfl (by norm_num) hg⟩

end StockTool
